import Mathlib

/- Verification development for the FGRM front-end core: the carousel
controller (src/components/Slides.tsx), the two auth-form controller
variants, and the router entry. Machine integers are modelled as Int with
JavaScript remainder semantics (truncation toward zero, Int.tmod). -/

/-- Descriptor of one carousel frame, as in the `slides` array of Slides.tsx. -/
structure SlideDescriptor where
  image : String
  title : String
  subtitle : String
  description : String
  align : String
  accent : String
deriving DecidableEq

/-- Auto-play duration constant SLIDE_DURATION of Slides.tsx. -/
def SLIDE_DURATION : Nat := 6500

/-- The fixed slide list of Slides.tsx (four entries). -/
def slides : List SlideDescriptor :=
  [ { image := "public/images/cocoa/newcocoa.jpg",
      title := "Your Voice Matters in Cocoa Farming",
      subtitle := "Feedback & Grievance Redress Mechanism",
      description := "Submit your feedback and report issues to promote sustainability and fairness in the industry.",
      align := "center", accent := "text-amber-400" },
    { image := "/images/cocoa/new cocoa2.jpg",
      title := "Tracking Progress, Ensuring Transparency",
      subtitle := "From Report to Resolution",
      description := "Easily track the status of your submitted cases with real-time updates and secure access.",
      align := "left", accent := "text-sky-400" },
    { image := "/images/cocoa/hand pollution.jpg",
      title := "Boosting Yields Through Hand Pollination",
      subtitle := "A Key Initiative",
      description := "Learn how modern techniques and supportive programs are driving higher cocoa productivity.",
      align := "right", accent := "text-emerald-400" },
    { image := "/images/cocoa/fetilizer distribution.jpg",
      title := "Accountability in Fertilizer Distribution",
      subtitle := "Fair Access for All",
      description := "Report issues related to resource quality and distribution for immediate action.",
      align := "left", accent := "text-rose-400" } ]

/-- JavaScript remainder operator: truncates toward zero, which is Int.tmod. -/
def jsRem (a b : Int) : Int := a.tmod b

/-- nextSlide of Slides.tsx: setCurrentSlide((prev) => (prev + 1) % totalSlides),
parametrised by totalSlides = slides.length. -/
def nextSlide (totalSlides : Int) (prev : Int) : Int :=
  jsRem (prev + 1) totalSlides

/-- prevSlide of Slides.tsx:
setCurrentSlide((prev) => (prev - 1 + totalSlides) % totalSlides). -/
def prevSlide (totalSlides : Int) (prev : Int) : Int :=
  jsRem (prev - 1 + totalSlides) totalSlides

/-- Render step of CreativeSlides: currentSlideData = slides[currentSlide]
(undefined when the index is out of range) followed by
currentSlideData.title.split(" "), which throws a TypeError when
currentSlideData is undefined. -/
def renderCreativeSlides (ss : List SlideDescriptor) (currentSlide : Nat) :
    Except String (List String) :=
  match ss.get? currentSlide with
  | none => Except.error "TypeError: cannot read title of undefined"
  | some d => Except.ok (d.title.splitOn " ")

/-- Mounting CreativeSlides at initial index 0 and letting the auto-play
interval fire `ticks` times. The useEffect that arms the interval (the only
caller of nextSlide besides the user control) only runs after a successful
initial render commit, so a render exception halts construction and no
nextSlide call is ever evaluated. -/
def runCreativeSlides (ss : List SlideDescriptor) (ticks : Nat) :
    Except String Int :=
  match renderCreativeSlides ss 0 with
  | Except.error e => Except.error e
  | Except.ok _ => Except.ok ((nextSlide (ss.length : Int))^[ticks] 0)

theorem nextSlide_eq_emod (N i : Int) (h0 : 0 ≤ i) (hN : 0 < N) :
    nextSlide N i = (i + 1) % N := by
  unfold nextSlide jsRem
  exact Int.tmod_eq_emod (by omega) (by omega)

theorem prevSlide_eq_emod (N i : Int) (h0 : 0 ≤ i) (hN : 0 < N) :
    prevSlide N i = (i - 1 + N) % N := by
  unfold prevSlide jsRem
  exact Int.tmod_eq_emod (by omega) (by omega)

theorem iterate_nextSlide (N : Int) (hN : 0 < N) :
    ∀ (k : Nat) (i : Int), 0 ≤ i → i < N →
      (nextSlide N)^[k] i = (i + k) % N := by
  intro k
  induction k with
  | zero =>
    intro i h0 hi
    simpa using (Int.emod_eq_of_lt h0 hi).symm
  | succ k ih =>
    intro i h0 hi
    rw [Function.iterate_succ_apply, nextSlide_eq_emod N i h0 hN]
    have h1 : 0 ≤ (i + 1) % N := Int.emod_nonneg _ (by omega)
    have h2 : (i + 1) % N < N := Int.emod_lt_of_pos _ hN
    rw [ih _ h1 h2, Int.emod_add_emod]
    congr 1
    push_cast
    ring

/-- C3: with an empty slide list, CreativeSlides halts at construction: the
initial render dereferences the title of the undefined slide 0 and throws,
so the interval effect never runs and nextSlide is never evaluated with
modulus 0, no matter how many ticks would have fired. -/
theorem creativeSlides_empty_fails (ticks : Nat) :
    runCreativeSlides [] ticks =
      Except.error "TypeError: cannot read title of undefined" := rfl

/-- C4: for every slide count n ≥ 1 and starting index i in range, advancing
n times returns the carousel index to i. -/
theorem nextSlide_cycle (n : Nat) (i : Int) (hn : 1 ≤ n) (h0 : 0 ≤ i)
    (hi : i < (n : Int)) :
    (nextSlide (n : Int))^[n] i = i := by
  have hN : (0 : Int) < (n : Int) := by omega
  rw [iterate_nextSlide _ hN n i h0 hi]
  rw [show i + (n : Int) = i + (n : Int) * 1 by ring,
    Int.add_mul_emod_self_left]
  exact Int.emod_eq_of_lt h0 hi

/-- Witness for C4 at the concrete slide count of Slides.tsx (four slides),
starting index 2. -/
theorem nextSlide_cycle_witness :
    (nextSlide ((slides.length : Nat) : Int))^[slides.length] (2 : Int) = 2 :=
  nextSlide_cycle slides.length 2 (by decide) (by decide) (by decide)

/-- C5: the carousel invariant 0 ≤ index < N holds initially (index 0) and is
preserved by nextSlide and prevSlide, and each operation undoes the other
from any in-range state. -/
theorem carousel_invariant (N i : Int) (hN : 1 ≤ N) (h0 : 0 ≤ i)
    (hi : i < N) :
    ((0 : Int) ≤ 0 ∧ (0 : Int) < N) ∧
    (0 ≤ nextSlide N i ∧ nextSlide N i < N) ∧
    (0 ≤ prevSlide N i ∧ prevSlide N i < N) ∧
    prevSlide N (nextSlide N i) = i ∧
    nextSlide N (prevSlide N i) = i := by
  have hN0 : (0 : Int) < N := by omega
  have hnext : nextSlide N i = (i + 1) % N := nextSlide_eq_emod N i h0 hN0
  have hprev : prevSlide N i = (i - 1 + N) % N := prevSlide_eq_emod N i h0 hN0
  have hn1 : 0 ≤ (i + 1) % N := Int.emod_nonneg _ (by omega)
  have hn2 : (i + 1) % N < N := Int.emod_lt_of_pos _ hN0
  have hp0 : 0 ≤ i - 1 + N := by omega
  have hp1 : 0 ≤ (i - 1 + N) % N := Int.emod_nonneg _ (by omega)
  have hp2 : (i - 1 + N) % N < N := Int.emod_lt_of_pos _ hN0
  refine ⟨⟨le_refl 0, hN0⟩, ⟨by rw [hnext]; exact hn1, by rw [hnext]; exact hn2⟩,
    ⟨by rw [hprev]; exact hp1, by rw [hprev]; exact hp2⟩, ?_, ?_⟩
  · rw [hnext, prevSlide_eq_emod N _ hn1 hN0]
    have e1 : (i + 1) % N - 1 + N = (i + 1) % N + (N - 1) := by ring
    rw [e1, Int.emod_add_emod]
    have e2 : i + 1 + (N - 1) = i + N * 1 := by ring
    rw [e2, Int.add_mul_emod_self_left]
    exact Int.emod_eq_of_lt h0 hi
  · rw [hprev, nextSlide_eq_emod N _ hp1 hN0]
    rw [Int.emod_add_emod]
    have e3 : i - 1 + N + 1 = i + N * 1 := by ring
    rw [e3, Int.add_mul_emod_self_left]
    exact Int.emod_eq_of_lt h0 hi

/-- Witness for C5 at the concrete slide count of Slides.tsx, index 3. -/
theorem carousel_invariant_witness :
    (((0 : Int) ≤ 0 ∧ (0 : Int) < ((slides.length : Nat) : Int)) ∧
    (0 ≤ nextSlide ((slides.length : Nat) : Int) 3 ∧
      nextSlide ((slides.length : Nat) : Int) 3 < ((slides.length : Nat) : Int)) ∧
    (0 ≤ prevSlide ((slides.length : Nat) : Int) 3 ∧
      prevSlide ((slides.length : Nat) : Int) 3 < ((slides.length : Nat) : Int)) ∧
    prevSlide ((slides.length : Nat) : Int)
      (nextSlide ((slides.length : Nat) : Int) 3) = 3 ∧
    nextSlide ((slides.length : Nat) : Int)
      (prevSlide ((slides.length : Nat) : Int) 3) = 3) :=
  carousel_invariant ((slides.length : Nat) : Int) 3 (by decide) (by decide)
    (by decide)

/-- Form field values of the AuthCard variant with mode-dependent schemas,
mirroring its defaultValues keys. The form only ever holds strings; the
empty string is the default and the cleared value. -/
structure FormValues where
  email : String
  password : String
  firstName : String
  lastName : String
  phoneNumber : String
  confirmPassword : String
deriving DecidableEq

/-- The all-empty value map passed to reset() by onSubmit and toggleAuthMode. -/
def emptyValues : FormValues := ⟨"", "", "", "", "", ""⟩

/-- A field-validation issue: the field path and its human-readable message. -/
abbrev Issue := String × String

/-- Modelled from the spec: the external schema validator (the zod library,
not part of this repository) checks email against an email-address grammar.
We model the grammar as one at-sign splitting a non-empty local part from a
non-empty dotted domain whose labels are all non-empty. -/
def emailOk (s : String) : Bool :=
  match s.toList.splitOn '@' with
  | [lp, dom] =>
    let ps := dom.splitOn '.'
    !lp.isEmpty && !dom.isEmpty && decide (2 ≤ ps.length) &&
      ps.all (fun p => !p.isEmpty)
  | _ => false

/-- LoginSchema of the mode-dependent AuthCard variant: email must match the
email grammar, password must have at least 8 characters. The issue list of
a safeParse of the field values. -/
def LoginSchema (v : FormValues) : List Issue :=
  (if emailOk v.email then [] else [("email", "Invalid email address")]) ++
  (if 8 ≤ v.password.length then []
    else [("password", "Password must be at least 8 characters")])

/-- Base object checks of SignupSchema, in source key order: email,
phoneNumber (min 10), firstName (min 1), lastName (min 1), password (min 8);
confirmPassword has no base check. -/
def signupBase (v : FormValues) : List Issue :=
  (if emailOk v.email then [] else [("email", "Invalid email address")]) ++
  (if 10 ≤ v.phoneNumber.length then []
    else [("phoneNumber", "Phone number must be at least 10 digits")]) ++
  (if 1 ≤ v.firstName.length then []
    else [("firstName", "First name is required")]) ++
  (if 1 ≤ v.lastName.length then []
    else [("lastName", "Last name is required")]) ++
  (if 8 ≤ v.password.length then []
    else [("password", "Password must be at least 8 characters")])

/-- SignupSchema of the mode-dependent AuthCard variant: the base object
checks, refined by password equality with the error attached to the
confirmPassword path. The refinement only runs when the base object parse
succeeds, as in the validation library. -/
def SignupSchema (v : FormValues) : List Issue :=
  if (signupBase v).isEmpty then
    (if v.password = v.confirmPassword then []
      else [("confirmPassword", "Passwords do not match")])
  else signupBase v

/-- Submission status of the auth form, derived from the submitting and
success flags the way the submit button renders them. -/
inductive SubmitStatus
  | Idle
  | Submitting
  | Success
deriving DecidableEq

/-- UI state of the AuthCard component: mode flag, submission flags, the form
values and the current validation-error set. -/
structure AuthState where
  isLogin : Bool
  submitting : Bool
  success : Bool
  values : FormValues
  errors : List Issue
deriving DecidableEq

/-- Status as rendered: Processing while submitting, then Success while the
success flag holds, otherwise Idle. -/
def statusOf (s : AuthState) : SubmitStatus :=
  if s.submitting then SubmitStatus.Submitting
  else if s.success then SubmitStatus.Success
  else SubmitStatus.Idle

/-- react-hook-form reset to the all-empty value map; reset also clears the
error set. -/
def resetEmpty (s : AuthState) : AuthState :=
  { s with values := emptyValues, errors := [] }

/-- Immediate effects of onSubmit before any timeout fires:
setSubmitting(true); setSuccess(false). -/
def onSubmitNow (s : AuthState) : AuthState :=
  { s with submitting := true, success := false }

/-- The 800-unit timeout callback of onSubmit: setSubmitting(false),
setSuccess(true), reset to all-empty values. -/
def submitTimeout800 (s : AuthState) : AuthState :=
  resetEmpty { s with submitting := false, success := true }

/-- The nested 2000-unit timeout callback of onSubmit: setSuccess(false). -/
def submitTimeout2000 (s : AuthState) : AuthState :=
  { s with success := false }

/-- State of the component t time units after onSubmit runs: the immediate
effects apply at once, the first timeout fires at 800, the nested one at
800 + 2000. -/
def stateAt (s : AuthState) (t : Nat) : AuthState :=
  if t < 800 then onSubmitNow s
  else if t < 800 + 2000 then submitTimeout800 (onSubmitNow s)
  else submitTimeout2000 (submitTimeout800 (onSubmitNow s))

/-- The submit button disabled predicate: disabled when the aggregate
validity flag is false or while submitting. -/
def submitDisabled (isValid submitting : Bool) : Bool :=
  !isValid || submitting

/-- toggleAuthMode of AuthCard: flip the mode flag and reset the form to the
all-empty value map, clearing the error set. -/
def toggleAuthMode (s : AuthState) : AuthState :=
  resetEmpty { s with isLogin := !s.isLogin }

/-- C1 (amended): after the submit handler runs on a schema-valid sign-up
form from the Idle state, the status is Submitting until 800 with the submit
control disabled throughout, Success from 800 until 2800 with the field
values already reset to all-empty, and Idle from 2800 on with the values
still empty; the values are cleared upon entering Success, not upon
entering Submitting. -/
theorem signup_submit_flow (s : AuthState) (_hv : SignupSchema s.values = [])
    (h1 : s.submitting = false) (h2 : s.success = false) :
    statusOf s = SubmitStatus.Idle ∧
    (∀ t, t < 800 →
      statusOf (stateAt s t) = SubmitStatus.Submitting ∧
      submitDisabled ((SignupSchema (stateAt s t).values).isEmpty)
        (stateAt s t).submitting = true) ∧
    (∀ t, 800 ≤ t → t < 2800 →
      statusOf (stateAt s t) = SubmitStatus.Success ∧
      (stateAt s t).values = emptyValues) ∧
    (∀ t, 2800 ≤ t →
      statusOf (stateAt s t) = SubmitStatus.Idle ∧
      (stateAt s t).values = emptyValues) := by
  refine ⟨by simp [statusOf, h1, h2], ?_, ?_, ?_⟩
  · intro t ht
    have hs : stateAt s t = onSubmitNow s := by simp [stateAt, ht]
    simp [hs, onSubmitNow, statusOf, submitDisabled]
  · intro t ht1 ht2
    have hs : stateAt s t = submitTimeout800 (onSubmitNow s) := by
      have : ¬ t < 800 := by omega
      have h28 : t < 800 + 2000 := by omega
      simp [stateAt, this, h28]
    simp [hs, submitTimeout800, resetEmpty, onSubmitNow, statusOf]
  · intro t ht
    have hs : stateAt s t =
        submitTimeout2000 (submitTimeout800 (onSubmitNow s)) := by
      have hn1 : ¬ t < 800 := by omega
      have hn2 : ¬ t < 800 + 2000 := by omega
      simp [stateAt, hn1, hn2]
    simp [hs, submitTimeout2000, submitTimeout800, resetEmpty, onSubmitNow,
      statusOf]

/-- A concrete schema-valid sign-up form state used to exercise the submit
flow: populated values, Idle, sign-up mode. -/
def demoSignupValues : FormValues :=
  ⟨"a@b.com", "abcdefgh", "Ama", "Owusu", "0241234567", "abcdefgh"⟩

def demoSignupState : AuthState := ⟨false, false, false, demoSignupValues, []⟩

/-- Witness for C1 at the concrete sign-up state, times 100, 1000 and 3000. -/
theorem signup_submit_flow_witness :
    statusOf (stateAt demoSignupState 100) = SubmitStatus.Submitting ∧
    statusOf (stateAt demoSignupState 1000) = SubmitStatus.Success ∧
    (stateAt demoSignupState 1000).values = emptyValues ∧
    statusOf (stateAt demoSignupState 3000) = SubmitStatus.Idle := by
  have h := signup_submit_flow demoSignupState (by decide) rfl rfl
  exact ⟨(h.2.1 100 (by omega)).1, (h.2.2.1 1000 (by omega) (by omega)).1,
    (h.2.2.1 1000 (by omega) (by omega)).2, (h.2.2.2 3000 (by omega)).1⟩

/-- Counterexample to C1 as stated: at time 0 the status has entered
Submitting on a schema-valid sign-up form, yet the field values are not
empty — the reset only happens in the 800-unit callback, upon entering
Success. -/
theorem signup_values_not_cleared_on_submitting :
    SignupSchema demoSignupValues = [] ∧
    statusOf (stateAt demoSignupState 0) = SubmitStatus.Submitting ∧
    (stateAt demoSignupState 0).values ≠ emptyValues := by
  refine ⟨by decide, by decide, by decide⟩

/-- C2: when every base field of the sign-up schema is valid but password
and confirmPassword differ, the mismatch issue is attached to the
confirmPassword path and no issue is attached to password. -/
theorem signup_mismatch_on_confirmPassword (v : FormValues)
    (he : emailOk v.email = true) (hp : 10 ≤ v.phoneNumber.length)
    (hf : 1 ≤ v.firstName.length) (hl : 1 ≤ v.lastName.length)
    (hpw : 8 ≤ v.password.length) (hne : v.password ≠ v.confirmPassword) :
    ("confirmPassword", "Passwords do not match") ∈ SignupSchema v ∧
    ∀ m, ("password", m) ∉ SignupSchema v := by
  have hbase : signupBase v = [] := by
    simp [signupBase, he, hp, hf, hl, hpw]
  have hs : SignupSchema v = [("confirmPassword", "Passwords do not match")] := by
    simp [SignupSchema, hbase, hne]
  refine ⟨by simp [hs], ?_⟩
  intro m hm
  rw [hs] at hm
  simp at hm

/-- Concrete sign-up values with mismatched passwords, all other fields
valid. -/
def demoMismatchValues : FormValues :=
  ⟨"a@b.com", "abcdefgh", "Ama", "Owusu", "0241234567", "abcdefgx"⟩

/-- Witness for C2 at the concrete mismatched sign-up values. -/
theorem signup_mismatch_witness :
    ("confirmPassword", "Passwords do not match") ∈ SignupSchema demoMismatchValues ∧
    ("password", "Password must be at least 8 characters") ∉
      SignupSchema demoMismatchValues := by
  have h := signup_mismatch_on_confirmPassword demoMismatchValues (by decide)
    (by decide) (by decide) (by decide) (by decide) (by decide)
  exact ⟨h.1, h.2 _⟩

/-- C6: toggling the auth mode flips the mode flag, resets every field value
to the empty string and clears the validation-error set, from any state. -/
theorem toggleAuthMode_clears (s : AuthState) :
    (toggleAuthMode s).isLogin = !s.isLogin ∧
    (toggleAuthMode s).values.email = "" ∧
    (toggleAuthMode s).values.password = "" ∧
    (toggleAuthMode s).values.firstName = "" ∧
    (toggleAuthMode s).values.lastName = "" ∧
    (toggleAuthMode s).values.phoneNumber = "" ∧
    (toggleAuthMode s).values.confirmPassword = "" ∧
    (toggleAuthMode s).errors = [] := by
  simp [toggleAuthMode, resetEmpty, emptyValues]

/-- C7: in sign-in mode, a password of length 5 produces the password
validation issue and the submit control is disabled whatever the submitting
flag is. -/
theorem login_short_password_error (v : FormValues) (sub : Bool)
    (h : v.password.length = 5) :
    ("password", "Password must be at least 8 characters") ∈ LoginSchema v ∧
    submitDisabled (LoginSchema v).isEmpty sub = true := by
  have hlen : ¬ (8 ≤ v.password.length) := by omega
  have hmem : ("password", "Password must be at least 8 characters") ∈
      LoginSchema v := by
    simp [LoginSchema, hlen]
  refine ⟨hmem, ?_⟩
  have hne : (LoginSchema v).isEmpty = false := by
    cases hL : LoginSchema v with
    | nil => rw [hL] at hmem; simp at hmem
    | cons a l => simp
  simp [submitDisabled, hne]

/-- Concrete sign-in values with a length-5 password. -/
def demoShortPassword : FormValues := ⟨"a@b.com", "abcde", "", "", "", ""⟩

/-- Witness for C7 at the concrete length-5 password, submitting flag false. -/
theorem login_short_password_witness :
    ("password", "Password must be at least 8 characters") ∈
      LoginSchema demoShortPassword ∧
    submitDisabled (LoginSchema demoShortPassword).isEmpty false = true :=
  login_short_password_error demoShortPassword false (by decide)

/-- C8: in sign-in mode, email a@b.com with a length-8 password validates:
the issue list is empty and the aggregate validity flag is true. -/
theorem login_valid_input (v : FormValues) (he : v.email = "a@b.com")
    (hp : v.password.length = 8) :
    LoginSchema v = [] ∧ (LoginSchema v).isEmpty = true := by
  have h1 : emailOk v.email = true := by rw [he]; decide
  have h2 : LoginSchema v = [] := by
    simp [LoginSchema, h1, hp]
  exact ⟨h2, by simp [h2]⟩

/-- Concrete valid sign-in values: email a@b.com, length-8 password. -/
def demoLoginValues : FormValues := ⟨"a@b.com", "abcdefgh", "", "", "", ""⟩

/-- Witness for C8 at the concrete valid sign-in values. -/
theorem login_valid_input_witness :
    LoginSchema demoLoginValues = [] ∧
    (LoginSchema demoLoginValues).isEmpty = true :=
  login_valid_input demoLoginValues rfl (by decide)

/-- Form field values of the single-schema AuthCard variant, mirroring its
defaultValues keys: name, email, password, confirmPassword. The form only
ever holds strings; the optional zod wrappers matter only for the value
undefined, which the registered inputs never produce. -/
structure AuthFormData where
  name : String
  email : String
  password : String
  confirmPassword : String
deriving DecidableEq

/-- Base object checks of AuthSchema, in source key order: name (min 1,
optional wrapper), email grammar, password (min 6); confirmPassword has no
base check beyond the optional string wrapper. -/
def authBase (v : AuthFormData) : List Issue :=
  (if 1 ≤ v.name.length then [] else [("name", "Name is required")]) ++
  (if emailOk v.email then [] else [("email", "Invalid email address")]) ++
  (if 6 ≤ v.password.length then []
    else [("password", "Password must be at least 6 characters")])

/-- Refinement predicate of AuthSchema, with JavaScript truthiness on the
string fields: !confirmPassword OR password === confirmPassword OR
!password (an empty string is falsy). -/
def authRefine (v : AuthFormData) : Bool :=
  v.confirmPassword == "" || v.password == v.confirmPassword ||
    v.password == ""

/-- AuthSchema of the single-schema AuthCard variant: base checks, refined
with the mismatch error attached to the confirmPassword path; the
refinement only runs when the base object parse succeeds. -/
def AuthSchema (v : AuthFormData) : List Issue :=
  if (authBase v).isEmpty then
    (if authRefine v then []
      else [("confirmPassword", "Passwords do not match")])
  else authBase v

/-- C9: while the password field is empty, the cross-field refinement of the
single-schema variant passes whatever confirmPassword holds, so the
mismatch issue is never attached to confirmPassword. -/
theorem authSchema_empty_password_no_mismatch (v : AuthFormData)
    (h : v.password = "") :
    authRefine v = true ∧
    ("confirmPassword", "Passwords do not match") ∉ AuthSchema v := by
  have hr : authRefine v = true := by simp [authRefine, h]
  refine ⟨hr, ?_⟩
  intro hm
  unfold AuthSchema at hm
  rw [hr] at hm
  by_cases hb : (authBase v).isEmpty = true
  · simp [hb] at hm
  · simp only [hb, if_false] at hm
    unfold authBase at hm
    split_ifs at hm <;> simp_all

/-- Concrete values with an empty password and a populated confirmPassword. -/
def demoEmptyPassword : AuthFormData := ⟨"Ama", "a@b.com", "", "zzz"⟩

/-- Witness for C9 at the concrete empty-password values. -/
theorem authSchema_empty_password_witness :
    authRefine demoEmptyPassword = true ∧
    ("confirmPassword", "Passwords do not match") ∉
      AuthSchema demoEmptyPassword :=
  authSchema_empty_password_no_mismatch demoEmptyPassword rfl

/-- A route target of the router entry: either a navigation redirect or a
page-level view. -/
inductive RouteElement
  | navigate (target : String)
  | page (name : String)
deriving DecidableEq

/-- The route table of the main entry file, in source order. -/
def routesMain : List (String × RouteElement) :=
  [ ("/", RouteElement.navigate "/home"),
    ("/home", RouteElement.page "Home"),
    ("/faqs", RouteElement.page "FAQs"),
    ("/about", RouteElement.page "About"),
    ("/create-case", RouteElement.page "CreateCase"),
    ("/track-case", RouteElement.page "TrackCase"),
    ("/login", RouteElement.page "Login") ]

/-- What the router renders for a path: the element of the first matching
route, if any. -/
def renderRoute (path : String) : Option RouteElement :=
  (routesMain.find? (fun r => decide (r.fst = path))).map Prod.snd

/-- The page finally displayed for a path, following at most one navigation
redirect (the router re-renders at the redirect target). -/
def displayedPage (path : String) : Option String :=
  match renderRoute path with
  | some (RouteElement.navigate t) =>
    match renderRoute t with
    | some (RouteElement.page p) => some p
    | _ => none
  | some (RouteElement.page p) => some p
  | none => none

/-- C10: the root path renders a navigation to /home, so it displays the
Home page — the same page as /home — rather than a distinct view. -/
theorem root_redirects_to_home :
    renderRoute "/" = some (RouteElement.navigate "/home") ∧
    displayedPage "/" = some "Home" ∧
    displayedPage "/" = displayedPage "/home" := by
  refine ⟨by decide, by decide, by decide⟩
